import Mathlib

/-!
Verification of the secure-judger core (src/judger.rs, src/secrun.rs,
src/utils.rs) against its natural-language specification.

The Rust source is shallowly embedded:
* files handed to `compare_content` are modelled as a seek-success flag plus
  the sequence of byte-read results (`none` = an I/O error during a read,
  which the source maps to the default byte 0 via `unwrap_or_default`);
* the post-reap half of `JudgeSession::run_judge` (lines 185-211) is the
  function `run_judge_status`, parameterised by the measured quantities and
  by `Option`-valued file opens / removal success so that the `?`-propagated
  error paths are explicit;
* the seccomp filter built by `install_seccomp` (src/secrun.rs) is embedded
  as its rule list together with an evaluator following seccompiler's
  documented semantics (empty rule vector: match action applies
  unconditionally; otherwise the match action applies iff some rule has all
  its conditions true; otherwise the mismatch action applies);
* `find_path` (src/utils.rs) is embedded with the `PATH` variable and the
  filesystem-existence test as explicit parameters.
-/

/-- `RuntimeErrorKind` from src/judger.rs. -/
inductive RuntimeErrorKind where
  | FloatingPointError
  | SegmentationFault
deriving DecidableEq

/-- `JudgeStatus` from src/judger.rs.  `ReturnNonZero` carries the raw
`i32` wait status, modelled as `Int`. -/
inductive JudgeStatus where
  | Accepted
  | WrongAnswer
  | TimeLimitExceeded
  | MemoryLimitExceeded
  | RuntimeError (kind : RuntimeErrorKind)
  | PresentationError
  | ReturnNonZero (ret : Int)
deriving DecidableEq

/-- A file handle as `compare_content` sees it: whether `seek` calls on it
succeed, the current read position, and the sequence of byte-read results
(`none` models an I/O error returned by a read; the source maps such an
error to byte `0` with `unwrap_or_default`). -/
structure JFile where
  seekOk : Bool
  pos : Nat
  bytes : List (Option Nat)
deriving DecidableEq

/-- `content.seek(SeekFrom::Start(0))?` : rewinds, or fails. -/
def seekStart (f : JFile) : Option JFile :=
  if f.seekOk then some { f with pos := 0 } else none

/-- Reading the stream to the end via `BufReader::bytes()`: yields the
remaining read results and leaves the position at the end.  Reading never
alters the contents. -/
def readToEnd (f : JFile) : List (Option Nat) × JFile :=
  (f.bytes.drop f.pos, { f with pos := f.bytes.length })

/-- `u8::is_ascii_whitespace` (Rust std): space, horizontal tab, line feed,
form feed, carriage return.  Vertical tab 0x0B is NOT in this set. -/
def is_ascii_whitespace (b : Nat) : Bool :=
  b == 0x20 || b == 0x09 || b == 0x0A || b == 0x0C || b == 0x0D

/-- `u8::to_ascii_uppercase` (Rust std). -/
def to_ascii_uppercase (b : Nat) : Nat :=
  if 0x61 ≤ b ∧ b ≤ 0x7A then b - 0x20 else b

/-- The `map(unwrap_or_default)` step of both passes: an errored read
contributes the default byte 0. -/
def unwrapOrDefaultByte (ch : Option Nat) : Nat := ch.getD 0

/-- The pass-2 derived stream of a sequence of read results:
`unwrap_or_default`, drop ASCII whitespace, upper-case ASCII letters
(src/judger.rs lines 227-234). -/
def processedBytes (l : List (Option Nat)) : List Nat :=
  ((l.map unwrapOrDefaultByte).filter (fun ch => !(is_ascii_whitespace ch))).map
    to_ascii_uppercase

/-- `compare_content` from src/judger.rs (lines 215-241).  Returns `none`
when a `seek` fails (the `?` operator propagates the I/O error); otherwise
the verdict together with the two file handles as they stand afterwards. -/
def compare_content (content1 content2 : JFile) :
    Option (JudgeStatus × JFile × JFile) := do
  let content1 ← seekStart content1
  let content2 ← seekStart content2
  let (b1, content1) := readToEnd content1
  let (b2, content2) := readToEnd content2
  if b1.map unwrapOrDefaultByte = b2.map unwrapOrDefaultByte then
    some (JudgeStatus.Accepted, content1, content2)
  else do
    let content1 ← seekStart content1
    let content2 ← seekStart content2
    let (b1, content1) := readToEnd content1
    let (b2, content2) := readToEnd content2
    some (if processedBytes b1 = processedBytes b2 then
            JudgeStatus.PresentationError
          else JudgeStatus.WrongAnswer, content1, content2)

/-- Only the verdict of `compare_content`. -/
def compareVerdict (c1 c2 : JFile) : Option JudgeStatus :=
  (compare_content c1 c2).map Prod.fst

/-- A freshly opened file whose reads all succeed and deliver the byte
sequence `s`. -/
def fileOf (s : List Nat) : JFile :=
  { seekOk := true, pos := 0, bytes := s.map some }

/-- The pass-2 derived stream of a pure byte sequence, as the code computes
it: drop Rust-ASCII whitespace, upper-case ASCII letters. -/
def derivedStream (s : List Nat) : List Nat :=
  (s.filter (fun b => !(is_ascii_whitespace b))).map to_ascii_uppercase

/-- Modelled from the spec: the derived stream as the specification words
it, dropping "space, tab, line feed, carriage return, vertical tab and
form feed" — i.e. including 0x0B — then upper-casing ASCII letters. -/
def specDerivedStream (s : List Nat) : List Nat :=
  (s.filter (fun b =>
    !(b == 0x20 || b == 0x09 || b == 0x0A || b == 0x0D || b == 0x0B ||
      b == 0x0C))).map to_ascii_uppercase

-- Helper lemmas ------------------------------------------------------------

-- The post-reap half of JudgeSession::run_judge -------------------------------

/-- `struct timeval`: seconds and microseconds of a CPU-time total. -/
structure Timeval where
  tv_sec : Int
  tv_usec : Int
deriving DecidableEq

/-- The fields of `libc::rusage` that `run_judge` reads. -/
structure Rusage where
  ru_maxrss : Int
  ru_utime : Timeval
deriving DecidableEq

/-- Rust's `as u64` cast of an `i64` value: reduce modulo 2^64. -/
def u64cast (x : Int) : Nat := (x % (2 : Int) ^ 64).toNat

/-- `let memory_used_bytes = res_used.ru_maxrss as u64 * 1024;`
(src/judger.rs line 186).  The `u64` multiplication wraps modulo 2^64. -/
def memory_used_bytes (res_used : Rusage) : Nat :=
  (u64cast res_used.ru_maxrss * 1024) % 2 ^ 64

/-- `let cpu_time_ms = (res_used.ru_utime.tv_usec/1000) as u64;`
(src/judger.rs line 187).  Only the sub-second `tv_usec` field is used;
for the kernel-guaranteed range `0 ≤ tv_usec < 1000000` every integer
division convention agrees with Rust's truncating division. -/
def cpu_time_ms (res_used : Rusage) : Nat :=
  u64cast (res_used.ru_utime.tv_usec / 1000)

/-- Modelled from the spec: the child's total user CPU time expressed in
microseconds, whole seconds included (`tv_sec * 10^6 + tv_usec`). -/
def specTotalUserMicroseconds (utime : Timeval) : Int :=
  utime.tv_sec * 1000000 + utime.tv_usec

/-- Rust's `as i8` cast of the low byte of an integer (two's complement). -/
def asI8 (x : Int) : Int := (x + 128) % 256 - 128

/-- `libc::WIFSIGNALED(status) = ((status & 0x7f) + 1) as i8 >= 2`.
`status & 0x7f` on a two's-complement `i32` equals `status mod 128`. -/
def wifsignaled (status : Int) : Bool := decide (2 ≤ asI8 (status % 128 + 1))

/-- `libc::WTERMSIG(status) = status & 0x7f = status mod 128`. -/
def wtermsig (status : Int) : Int := status % 128

/-- `libc::SIGFPE`. -/
def SIGFPE : Int := 8

/-- `libc::SIGSEGV`. -/
def SIGSEGV : Int := 11

/-- The verdict/cleanup computation of `JudgeSession::run_judge` after the
child is reaped (src/judger.rs lines 189-209), together with whether
`fs::remove_file(&tmp_out)` was executed.  `std_ans` and `test_ans` are the
results of the two `File::open` calls (`none` = the open failed and `?`
propagated the error); `remove_ok` tells whether `remove_file` succeeds.
`none` overall means `run_judge` returns an error instead of a verdict. -/
def run_judge_status (max_allowed_memory_bytes : Nat) (max_allowed_time : Nat)
    (memoryUsed : Nat) (duration : Nat) (return_value : Int)
    (std_ans test_ans : Option JFile) (remove_ok : Bool) :
    Option (JudgeStatus × Bool) :=
  if memoryUsed > max_allowed_memory_bytes then
    some (JudgeStatus.MemoryLimitExceeded, false)
  else if duration > max_allowed_time then
    some (JudgeStatus.TimeLimitExceeded, false)
  else if return_value ≠ 0 then
    some (if wifsignaled return_value then
            if wtermsig return_value = SIGFPE then
              JudgeStatus.RuntimeError RuntimeErrorKind.FloatingPointError
            else if wtermsig return_value = SIGSEGV then
              JudgeStatus.RuntimeError RuntimeErrorKind.SegmentationFault
            else JudgeStatus.ReturnNonZero return_value
          else JudgeStatus.ReturnNonZero return_value, false)
  else do
    let std ← std_ans
    let test ← test_ans
    let (result, _, _) ← compare_content std test
    if remove_ok then some (result, true) else none

/-- The verdict alone. -/
def run_judge_verdict (max_allowed_memory_bytes : Nat)
    (max_allowed_time : Nat) (memoryUsed : Nat) (duration : Nat)
    (return_value : Int) (std_ans test_ans : Option JFile)
    (remove_ok : Bool) : Option JudgeStatus :=
  (run_judge_status max_allowed_memory_bytes max_allowed_time memoryUsed
    duration return_value std_ans test_ans remove_ok).map Prod.fst

-- The seccomp filter of install_seccomp (src/secrun.rs) -----------------------

/-- `SeccompCmpArgLen` (seccompiler): compare the whole 64-bit argument or
only its least-significant 32 bits. -/
inductive SeccompCmpArgLen where
  | dword
  | qword
deriving DecidableEq

/-- The two comparison operators `install_seccomp` uses:
`MaskedEq mask` (argument AND mask equals the value) and `Ne`. -/
inductive SeccompCmpOp where
  | maskedEq (mask : Nat)
  | ne
deriving DecidableEq

/-- `SeccompCondition::new(arg_index, arg_len, op, value)`. -/
structure SeccompCondition where
  argIndex : Fin 6
  argLen : SeccompCmpArgLen
  op : SeccompCmpOp
  value : Nat
deriving DecidableEq

/-- Truncate an argument (or immediate) to the compared width. -/
def truncArg : SeccompCmpArgLen → Nat → Nat
  | SeccompCmpArgLen.dword, x => x % 2 ^ 32
  | SeccompCmpArgLen.qword, x => x % 2 ^ 64

/-- Whether one condition holds of the syscall's six arguments. -/
def condMatches (args : Fin 6 → Nat) (c : SeccompCondition) : Bool :=
  let a := truncArg c.argLen (args c.argIndex)
  match c.op with
  | SeccompCmpOp.maskedEq mask =>
    (a &&& truncArg c.argLen mask) == truncArg c.argLen c.value
  | SeccompCmpOp.ne => a != truncArg c.argLen c.value

/-- A `SeccompRule` matches when all its conditions hold. -/
def ruleMatches (args : Fin 6 → Nat) (r : List SeccompCondition) : Bool :=
  r.all (condMatches args)

/-- A seccomp action: allow the syscall, or fail it with an errno. -/
inductive SeccompAction where
  | allow
  | errno (e : Nat)
deriving DecidableEq

-- x86_64 syscall numbers and flag constants used by install_seccomp.

/-- `libc::SYS_open` on x86_64. -/
def SYS_open : Nat := 2

/-- `libc::SYS_openat` on x86_64. -/
def SYS_openat : Nat := 257

/-- `libc::SYS_execve` on x86_64. -/
def SYS_execve : Nat := 59

/-- `libc::SYS_execveat` on x86_64. -/
def SYS_execveat : Nat := 322

/-- `libc::SYS_socket` on x86_64. -/
def SYS_socket : Nat := 41

/-- `libc::SYS_fork` on x86_64. -/
def SYS_fork : Nat := 57

/-- `libc::SYS_vfork` on x86_64. -/
def SYS_vfork : Nat := 58

/-- `libc::SYS_prctl` on x86_64. -/
def SYS_prctl : Nat := 157

/-- `libc::SYS_ioctl` on x86_64. -/
def SYS_ioctl : Nat := 16

/-- `libc::SYS_clone` on x86_64. -/
def SYS_clone : Nat := 56

/-- `libc::SYS_mkdir` on x86_64. -/
def SYS_mkdir : Nat := 83

/-- `libc::SYS_rmdir` on x86_64. -/
def SYS_rmdir : Nat := 84

/-- `libc::SYS_creat` on x86_64. -/
def SYS_creat : Nat := 85

/-- `libc::SYS_chroot` on x86_64. -/
def SYS_chroot : Nat := 161

/-- `libc::O_RDWR`. -/
def O_RDWR : Nat := 2

/-- `libc::O_WRONLY`. -/
def O_WRONLY : Nat := 1

/-- `libc::EPERM`. -/
def EPERM : Nat := 1

/-- The rule map `install_seccomp` passes to `SeccompFilter::new`,
parameterised by the numeric value of the whitelisted `execve` path
pointer (`execve_whitepath.as_ptr() as u64`).  `open`/`openat` filter the
flags argument (index 1 resp. 2, dword) with `MaskedEq`; `execve` filters
its first argument (qword) with `Ne`; the remaining syscalls carry an
empty rule list. -/
def judgeFilterRules (execve_whitepath : Nat) :
    List (Nat × List (List SeccompCondition)) :=
  [ (SYS_open,
      [[SeccompCondition.mk 1 SeccompCmpArgLen.dword
          (SeccompCmpOp.maskedEq O_RDWR) O_RDWR],
       [SeccompCondition.mk 1 SeccompCmpArgLen.dword
          (SeccompCmpOp.maskedEq O_WRONLY) O_WRONLY]]),
    (SYS_openat,
      [[SeccompCondition.mk 2 SeccompCmpArgLen.dword
          (SeccompCmpOp.maskedEq O_RDWR) O_RDWR],
       [SeccompCondition.mk 2 SeccompCmpArgLen.dword
          (SeccompCmpOp.maskedEq O_WRONLY) O_WRONLY]]),
    (SYS_execve,
      [[SeccompCondition.mk 0 SeccompCmpArgLen.qword
          SeccompCmpOp.ne execve_whitepath]]),
    (SYS_execveat, []),
    (SYS_socket, []),
    (SYS_fork, []),
    (SYS_vfork, []),
    (SYS_prctl, []),
    (SYS_ioctl, []),
    (SYS_clone, []),
    (SYS_mkdir, []),
    (SYS_rmdir, []),
    (SYS_creat, []),
    (SYS_chroot, []) ]

/-- seccompiler's filter semantics: a syscall absent from the map gets the
mismatch action; a syscall present with an empty rule vector gets the match
action unconditionally; otherwise the match action applies iff some rule
matches, else the mismatch action. -/
def evalSeccompFilter (rules : List (Nat × List (List SeccompCondition)))
    (mismatch_action match_action : SeccompAction) (sysno : Nat)
    (args : Fin 6 → Nat) : SeccompAction :=
  match List.lookup sysno rules with
  | none => mismatch_action
  | some rs =>
    if rs.isEmpty then match_action
    else if rs.any (ruleMatches args) then match_action
    else mismatch_action

/-- The filter installed by `install_seccomp`: the rule map above with
mismatch action `Allow` and match action `Errno(EPERM)`. -/
def install_seccomp_action (execve_whitepath : Nat) (sysno : Nat)
    (args : Fin 6 → Nat) : SeccompAction :=
  evalSeccompFilter (judgeFilterRules execve_whitepath)
    SeccompAction.allow (SeccompAction.errno EPERM) sysno args

-- find_path (src/utils.rs) ----------------------------------------------------

/-- A Rust `str`, embedded as its character sequence. -/
abbrev RStr : Type := List Char

/-- `str::split(sep)`: the substrings between occurrences of `sep`,
empty substrings included (`"" → [""]`, `"a:" → ["a", ""]`). -/
def splitOnSep (sep : Char) (s : RStr) : List RStr :=
  List.foldr (fun c acc =>
    match acc with
    | [] => [[c]]
    | g :: gs => if c = sep then [] :: g :: gs else (c :: g) :: gs)
    [[]] s

/-- `PathBuf::from(p).push(filename)` for the relative `filename` at hand:
an empty base yields `filename`; a base already ending in the separator is
concatenated directly; otherwise a `/` is inserted. -/
def path_push (p filename : RStr) : RStr :=
  if p = ([] : List Char) then filename
  else if p.getLast? = some '/' then p ++ filename
  else p ++ ['/'] ++ filename

/-- The `for p in paths_split` loop of `find_path`: return the first joined
path that exists, or the bare filename when the segments are exhausted. -/
def find_path_loop (filename : RStr) (path_exists : RStr → Bool) :
    List RStr → RStr
  | [] => filename
  | p :: rest =>
    let path := path_push p filename
    if path_exists path then path else find_path_loop filename path_exists rest

/-- `find_path` from src/utils.rs, with the `PATH` environment variable
(`none` = `std::env::var("PATH")` failed) and the filesystem-existence
test as explicit parameters. -/
def find_path (filename : RStr) (path_var : Option RStr)
    (path_exists : RStr → Bool) : RStr :=
  if (filename : List Char).contains '/' then filename
  else
    match path_var with
    | none => filename
    | some paths => find_path_loop filename path_exists (splitOnSep ':' paths)

lemma map_unwrap_map_some (s : List Nat) :
    (s.map some).map unwrapOrDefaultByte = s := by
  simp [unwrapOrDefaultByte, Function.comp_def]

lemma processedBytes_map_some (s : List Nat) :
    processedBytes (s.map some) = derivedStream s := by
  simp [processedBytes, derivedStream, List.filter_map, List.map_map,
    unwrapOrDefaultByte, Function.comp_def]

lemma compare_content_fileOf (s1 s2 : List Nat) :
    compare_content (fileOf s1) (fileOf s2) =
      some (if s1 = s2 then JudgeStatus.Accepted
            else if derivedStream s1 = derivedStream s2 then
              JudgeStatus.PresentationError
            else JudgeStatus.WrongAnswer,
            { seekOk := true, pos := s1.length, bytes := s1.map some },
            { seekOk := true, pos := s2.length, bytes := s2.map some }) := by
  by_cases h : s1 = s2 <;>
    simp [compare_content, seekStart, readToEnd, fileOf, map_unwrap_map_some,
      processedBytes_map_some, h, Function.comp_def, unwrapOrDefaultByte,
      List.map_inj_left]

/-- C3: comparing a file having content `s` against another file having the
same content `s` returns `Accepted`: the pass-1 exact check succeeds on
identical byte sequences. -/
theorem compare_self_accepted (s : List Nat) :
    compareVerdict (fileOf s) (fileOf s) = some JudgeStatus.Accepted := by
  simp [compareVerdict, compare_content_fileOf]

/-- C2 counterexample: for the pair of byte sequences `[0x0B]` (a lone
vertical tab) and `[]`, the exact comparison fails, the derived streams as
the spec words them (vertical tab dropped) are equal — so the claim demands
`PresentationError` — yet the code returns `WrongAnswer`, because Rust's
`is_ascii_whitespace` does not treat 0x0B as whitespace. -/
theorem compare_vertical_tab_counterexample :
    ([0x0B] : List Nat) ≠ [] ∧
    specDerivedStream [0x0B] = specDerivedStream [] ∧
    compareVerdict (fileOf [0x0B]) (fileOf []) =
      some JudgeStatus.WrongAnswer := by
  refine ⟨by decide, by decide, ?_⟩
  simp [compareVerdict, compare_content_fileOf]
  decide

/-- C2 (amended): whenever the exact byte-for-byte comparison fails, the
comparator recompares after dropping every byte in Rust's ASCII-whitespace
set — space, tab, line feed, carriage return and form feed, but NOT the
vertical tab 0x0B — and upper-casing ASCII letters, returning
`PresentationError` iff the derived streams are equal and `WrongAnswer`
otherwise. -/
theorem compare_forgiving_pass (s1 s2 : List Nat) (h : s1 ≠ s2) :
    compareVerdict (fileOf s1) (fileOf s2) =
      some (if derivedStream s1 = derivedStream s2 then
              JudgeStatus.PresentationError
            else JudgeStatus.WrongAnswer) := by
  simp [compareVerdict, compare_content_fileOf, h]

/-- Witness for C2 (amended) at `s1 = "A"`, `s2 = "a "`. -/
theorem compare_forgiving_pass_witness :
    ([65] : List Nat) ≠ [97, 32] ∧
    compareVerdict (fileOf [65]) (fileOf [97, 32]) =
      some JudgeStatus.PresentationError := by
  refine ⟨by decide, ?_⟩
  have h := compare_forgiving_pass [65] [97, 32] (by decide)
  simpa [derivedStream, is_ascii_whitespace, to_ascii_uppercase] using h

/-- C4 counterexample: a reference stream whose single byte read errors
mid-way (modelled `none`), compared against a stream delivering the single
byte 0.  The code maps the errored read to the default byte 0 via
`unwrap_or_default`, the exact pass succeeds, and the verdict `Accepted` is
returned — no `JudgeIOError` is propagated for the failed byte read. -/
theorem compare_read_error_counterexample :
    (JFile.mk true 0 [none]).bytes.contains none = true ∧
    compareVerdict (JFile.mk true 0 [none]) (JFile.mk true 0 [some 0]) =
      some JudgeStatus.Accepted := by
  constructor
  · decide
  · rfl

/-- C4 (amended): I/O errors raised while opening the files (handled in
`run_judge` by `?`) or while seeking (`?` inside `compare_content`)
propagate as errors and never produce a verdict; but an I/O error raised
while reading bytes is swallowed — the failed read contributes the default
byte 0 — and a verdict is still produced, equal to the pure comparison of
the error-defaulted byte sequences. -/
theorem compare_error_handling (f1 f2 : JFile) :
    (f1.seekOk = false ∨ f2.seekOk = false →
      compare_content f1 f2 = none) ∧
    (f1.seekOk = true → f2.seekOk = true →
      compareVerdict f1 f2 =
        some (if f1.bytes.map unwrapOrDefaultByte =
                 f2.bytes.map unwrapOrDefaultByte then
                JudgeStatus.Accepted
              else if processedBytes f1.bytes = processedBytes f2.bytes then
                JudgeStatus.PresentationError
              else JudgeStatus.WrongAnswer)) := by
  constructor
  · rintro (h | h)
    · simp [compare_content, seekStart, h]
    · by_cases h1 : f1.seekOk <;>
        simp [compare_content, seekStart, readToEnd, h, h1]
  · intro h1 h2
    by_cases he : f1.bytes.map unwrapOrDefaultByte =
        f2.bytes.map unwrapOrDefaultByte <;>
      simp [compareVerdict, compare_content, seekStart, readToEnd, h1, h2, he]

/-- Witness for C4 (amended) at two concrete files, one with a mid-read
error. -/
theorem compare_error_handling_witness :
    compare_content (JFile.mk false 0 []) (JFile.mk true 0 []) = none ∧
    compareVerdict (JFile.mk true 0 [none]) (JFile.mk true 0 [some 0]) =
      some JudgeStatus.Accepted := by
  have h1 := (compare_error_handling (JFile.mk false 0 [])
    (JFile.mk true 0 [])).1 (Or.inl rfl)
  have h2 := (compare_error_handling (JFile.mk true 0 [none])
    (JFile.mk true 0 [some 0])).2 rfl rfl
  exact ⟨h1, by simpa using h2⟩

/-- C9: `compare_content` yields only `Accepted`, `PresentationError` or
`WrongAnswer` (never a limit-, signal- or exit-related verdict), and it
leaves both files' contents and seek behaviour unchanged — it only reads
and seeks. -/
theorem compare_content_range_and_frame (f1 f2 : JFile)
    (st : JudgeStatus) (g1 g2 : JFile)
    (h : compare_content f1 f2 = some (st, g1, g2)) :
    (st = JudgeStatus.Accepted ∨ st = JudgeStatus.PresentationError ∨
      st = JudgeStatus.WrongAnswer) ∧
    g1.bytes = f1.bytes ∧ g2.bytes = f2.bytes ∧
    g1.seekOk = f1.seekOk ∧ g2.seekOk = f2.seekOk := by
  by_cases h1 : f1.seekOk
  · by_cases h2 : f2.seekOk
    · by_cases he : f1.bytes.map unwrapOrDefaultByte =
          f2.bytes.map unwrapOrDefaultByte
      · simp [compare_content, seekStart, readToEnd, h1, h2, he] at h
        rcases h with ⟨hst, hg1, hg2⟩
        subst hst
        simp [← hg1, ← hg2, h1, h2]
      · simp [compare_content, seekStart, readToEnd, h1, h2, he] at h
        rcases h with ⟨hst, hg1, hg2⟩
        subst hst
        constructor
        · split <;> simp
        · simp [← hg1, ← hg2, h1, h2]
    · simp [compare_content, seekStart, readToEnd, h1, h2] at h
  · simp [compare_content, seekStart, h1] at h

lemma run_judge_status_compare_case (mM tM mem dur : Nat) (rv : Int)
    (sa ta : Option JFile) (rok : Bool) (hm : mem ≤ mM) (ht : dur ≤ tM)
    (hr : rv = 0) (st : JudgeStatus) (rm : Bool)
    (h : run_judge_status mM tM mem dur rv sa ta rok = some (st, rm)) :
    ∃ f1 f2 g1 g2, sa = some f1 ∧ ta = some f2 ∧
      compare_content f1 f2 = some (st, g1, g2) ∧ rok = true ∧ rm = true := by
  cases sa with
  | none =>
    simp [run_judge_status, Nat.not_lt.mpr hm, Nat.not_lt.mpr ht, hr] at h
  | some f1 =>
    cases ta with
    | none =>
      simp [run_judge_status, Nat.not_lt.mpr hm, Nat.not_lt.mpr ht, hr] at h
    | some f2 =>
      simp [run_judge_status, Nat.not_lt.mpr hm, Nat.not_lt.mpr ht, hr] at h
      cases hc : compare_content f1 f2 with
      | none => simp [hc] at h
      | some r =>
        obtain ⟨st', g1, g2⟩ := r
        rw [hc] at h
        simp at h
        cases rok with
        | false => simp at h
        | true =>
          simp at h
          refine ⟨f1, f2, g1, g2, rfl, rfl, ?_, rfl, ?_⟩ <;> simp_all

lemma compare_content_status_cases (f1 f2 : JFile) (st : JudgeStatus)
    (g1 g2 : JFile) (h : compare_content f1 f2 = some (st, g1, g2)) :
    st = JudgeStatus.Accepted ∨ st = JudgeStatus.PresentationError ∨
      st = JudgeStatus.WrongAnswer := by
  by_cases h1 : f1.seekOk
  · by_cases h2 : f2.seekOk
    · by_cases he : f1.bytes.map unwrapOrDefaultByte =
          f2.bytes.map unwrapOrDefaultByte
      · simp [compare_content, seekStart, readToEnd, h1, h2, he] at h
        simp [← h.1]
      · simp [compare_content, seekStart, readToEnd, h1, h2, he] at h
        rw [← h.1]
        split <;> simp
    · simp [compare_content, seekStart, readToEnd, h1, h2] at h
  · simp [compare_content, seekStart, h1] at h

/-- C1: the classifier applies its rules in fixed order, first match wins:
memory over limit gives `MemoryLimitExceeded` and dominates everything;
else time over limit gives `TimeLimitExceeded` and dominates signal, exit
and output verdicts; else a non-zero raw wait status maps `SIGFPE` to
`RuntimeError FloatingPointError`, `SIGSEGV` to
`RuntimeError SegmentationFault`, any other signal and any non-signaled
non-zero status to `ReturnNonZero raw`; else the output comparator decides
among `Accepted`, `PresentationError` and `WrongAnswer`. -/
theorem classifier_precedence (mM tM mem dur : Nat) (rv : Int)
    (sa ta : Option JFile) (rok : Bool) :
    (mem > mM →
      run_judge_verdict mM tM mem dur rv sa ta rok =
        some JudgeStatus.MemoryLimitExceeded) ∧
    (mem ≤ mM → dur > tM →
      run_judge_verdict mM tM mem dur rv sa ta rok =
        some JudgeStatus.TimeLimitExceeded) ∧
    (mem ≤ mM → dur ≤ tM → rv ≠ 0 → wifsignaled rv = true →
      wtermsig rv = SIGFPE →
      run_judge_verdict mM tM mem dur rv sa ta rok =
        some (JudgeStatus.RuntimeError RuntimeErrorKind.FloatingPointError)) ∧
    (mem ≤ mM → dur ≤ tM → rv ≠ 0 → wifsignaled rv = true →
      wtermsig rv = SIGSEGV →
      run_judge_verdict mM tM mem dur rv sa ta rok =
        some (JudgeStatus.RuntimeError RuntimeErrorKind.SegmentationFault)) ∧
    (mem ≤ mM → dur ≤ tM → rv ≠ 0 → wifsignaled rv = true →
      wtermsig rv ≠ SIGFPE → wtermsig rv ≠ SIGSEGV →
      run_judge_verdict mM tM mem dur rv sa ta rok =
        some (JudgeStatus.ReturnNonZero rv)) ∧
    (mem ≤ mM → dur ≤ tM → rv ≠ 0 → wifsignaled rv = false →
      run_judge_verdict mM tM mem dur rv sa ta rok =
        some (JudgeStatus.ReturnNonZero rv)) ∧
    (mem ≤ mM → dur ≤ tM → rv = 0 → ∀ st,
      run_judge_verdict mM tM mem dur rv sa ta rok = some st →
      st = JudgeStatus.Accepted ∨ st = JudgeStatus.PresentationError ∨
        st = JudgeStatus.WrongAnswer) := by
  refine ⟨?_, ?_, ?_, ?_, ?_, ?_, ?_⟩
  · intro hm
    simp [run_judge_verdict, run_judge_status, hm]
  · intro hm ht
    simp [run_judge_verdict, run_judge_status, Nat.not_lt.mpr hm, ht]
  · intro hm ht hr hs h8
    simp [run_judge_verdict, run_judge_status, Nat.not_lt.mpr hm,
      Nat.not_lt.mpr ht, hr, hs, h8]
  · intro hm ht hr hs h11
    simp [run_judge_verdict, run_judge_status, Nat.not_lt.mpr hm,
      Nat.not_lt.mpr ht, hr, hs, h11, SIGFPE, SIGSEGV]
  · intro hm ht hr hs h8 h11
    simp [run_judge_verdict, run_judge_status, Nat.not_lt.mpr hm,
      Nat.not_lt.mpr ht, hr, hs, h8, h11]
  · intro hm ht hr hs
    simp [run_judge_verdict, run_judge_status, Nat.not_lt.mpr hm,
      Nat.not_lt.mpr ht, hr, hs]
  · intro hm ht hr st hst
    simp only [run_judge_verdict, Option.map_eq_some'] at hst
    obtain ⟨⟨st', rm⟩, hsr, hfst⟩ := hst
    obtain ⟨f1, f2, g1, g2, -, -, hc, -, -⟩ :=
      run_judge_status_compare_case mM tM mem dur rv sa ta rok hm ht hr
        st' rm hsr
    cases hfst
    exact (compare_content_status_cases f1 f2 st' g1 g2 hc)

/-- Witness for C1: with memory limit 0 and 1 byte used, the verdict is
`MemoryLimitExceeded`. -/
theorem classifier_precedence_witness :
    run_judge_verdict 0 0 1 0 0 none none false =
      some JudgeStatus.MemoryLimitExceeded :=
  (classifier_precedence 0 0 1 0 0 none none false).1 (by decide)

/-- C7: the captured scratch output file is removed before a verdict is
returned iff the classifier reached the comparison step, i.e. the child was
within the memory and time limits and its raw wait status was zero; on
every other verdict path the removal flag is false. -/
theorem tmp_out_removed_iff_compared (mM tM mem dur : Nat) (rv : Int)
    (sa ta : Option JFile) (rok : Bool) (st : JudgeStatus) (rm : Bool)
    (h : run_judge_status mM tM mem dur rv sa ta rok = some (st, rm)) :
    rm = true ↔ (mem ≤ mM ∧ dur ≤ tM ∧ rv = 0) := by
  by_cases hm : mem > mM
  · simp [run_judge_status, hm] at h
    obtain ⟨-, hrm⟩ := h
    cases rm
    · simp
      omega
    · simp at hrm
  · by_cases ht : dur > tM
    · simp [run_judge_status, hm, ht] at h
      obtain ⟨-, hrm⟩ := h
      cases rm
      · simp
        omega
      · simp at hrm
    · by_cases hr : rv = 0
      · obtain ⟨f1, f2, g1, g2, -, -, -, -, hrm⟩ :=
          run_judge_status_compare_case mM tM mem dur rv sa ta rok
            (Nat.not_lt.mp hm) (Nat.not_lt.mp ht) hr st rm h
        simp [hrm, Nat.not_lt.mp hm, Nat.not_lt.mp ht, hr]
      · simp [run_judge_status, hm, ht, hr] at h
        obtain ⟨-, hrm⟩ := h
        cases rm
        · simp
          omega
        · simp at hrm

/-- Witness for C7 on the comparison path: identical empty files, removal
succeeding, verdict `Accepted` with the file removed. -/
theorem tmp_out_removed_iff_compared_witness :
    (true = true ↔ ((0 : Nat) ≤ 1 ∧ (0 : Nat) ≤ 1 ∧ (0 : Int) = 0)) :=
  tmp_out_removed_iff_compared 1 1 0 0 0 (some (fileOf []))
    (some (fileOf [])) true JudgeStatus.Accepted true rfl

/-- C10: the `cpu_time_ms` field is always strictly below 1000, whatever
CPU time the child consumed, because it is computed solely from the
sub-second `tv_usec` field of the user-time component, which the kernel
keeps in `[0, 1000000)`. -/
theorem cpu_time_ms_lt_1000 (res_used : Rusage)
    (h0 : 0 ≤ res_used.ru_utime.tv_usec)
    (h1 : res_used.ru_utime.tv_usec < 1000000) :
    cpu_time_ms res_used < 1000 := by
  unfold cpu_time_ms u64cast
  omega

/-- Witness for C10 at `tv_usec = 999999`. -/
theorem cpu_time_ms_lt_1000_witness :
    cpu_time_ms (Rusage.mk 0 (Timeval.mk 7 999999)) < 1000 :=
  cpu_time_ms_lt_1000 (Rusage.mk 0 (Timeval.mk 7 999999))
    (by decide) (by decide)

/-- C6 (code bug): for a child whose user CPU time is 2 s + 500000 µs, the
code computes `cpu_time_ms = 500`, while the claimed value — total user CPU
microseconds divided by 1000 — is 2500: the whole-second part `tv_sec` is
ignored by the code. -/
theorem cpu_time_ms_ignores_seconds :
    cpu_time_ms (Rusage.mk 0 (Timeval.mk 2 500000)) = 500 ∧
    specTotalUserMicroseconds (Timeval.mk 2 500000) / 1000 = 2500 ∧
    (500 : Int) ≠ 2500 := by
  refine ⟨?_, by decide, by decide⟩
  unfold cpu_time_ms u64cast
  decide

lemma seccomp_allow_or_errno (rules : List (Nat × List (List SeccompCondition)))
    (sysno : Nat) (args : Fin 6 → Nat) :
    evalSeccompFilter rules SeccompAction.allow (SeccompAction.errno EPERM)
        sysno args = SeccompAction.allow ∨
      evalSeccompFilter rules SeccompAction.allow (SeccompAction.errno EPERM)
        sysno args = SeccompAction.errno EPERM := by
  unfold evalSeccompFilter
  cases List.lookup sysno rules with
  | none => exact Or.inl rfl
  | some rs =>
    by_cases he : rs.isEmpty
    · simp [he]
    · by_cases ha : rs.any (ruleMatches args) <;> simp [he, ha]

/-- C5: the installed seccomp filter is exactly this policy: every syscall
is either allowed or denied with errno `EPERM`, and it is denied precisely
when it is `open`/`openat` with a flags word whose `O_RDWR`-masked value is
`O_RDWR` or whose `O_WRONLY`-masked value is `O_WRONLY` (read-only opens
are allowed), or `execve` with a first argument different from the
parent-chosen executable path pointer, or one of `execveat`, `socket`,
`fork`, `vfork`, `prctl`, `ioctl`, `clone`, `mkdir`, `rmdir`, `creat`,
`chroot`; every other syscall falls to the default action `Allow`. -/
theorem seccomp_policy (wp sysno : Nat) (args : Fin 6 → Nat) :
    (install_seccomp_action wp sysno args = SeccompAction.allow ∨
      install_seccomp_action wp sysno args = SeccompAction.errno EPERM) ∧
    (install_seccomp_action wp sysno args = SeccompAction.errno EPERM ↔
      (sysno = SYS_open ∧
        ((args 1 % 2 ^ 32) &&& O_RDWR = O_RDWR ∨
          (args 1 % 2 ^ 32) &&& O_WRONLY = O_WRONLY)) ∨
      (sysno = SYS_openat ∧
        ((args 2 % 2 ^ 32) &&& O_RDWR = O_RDWR ∨
          (args 2 % 2 ^ 32) &&& O_WRONLY = O_WRONLY)) ∨
      (sysno = SYS_execve ∧ args 0 % 2 ^ 64 ≠ wp % 2 ^ 64) ∨
      sysno ∈ [SYS_execveat, SYS_socket, SYS_fork, SYS_vfork, SYS_prctl,
        SYS_ioctl, SYS_clone, SYS_mkdir, SYS_rmdir, SYS_creat,
        SYS_chroot]) := by
  refine ⟨seccomp_allow_or_errno (judgeFilterRules wp) sysno args, ?_⟩
  rcases eq_or_ne sysno 2 with h | h0
  · subst h
    simp [install_seccomp_action, evalSeccompFilter, judgeFilterRules,
      SYS_open, SYS_openat, SYS_execve, SYS_execveat, SYS_socket, SYS_fork,
      SYS_vfork, SYS_prctl, SYS_ioctl, SYS_clone, SYS_mkdir, SYS_rmdir,
      SYS_creat, SYS_chroot, O_RDWR, O_WRONLY, EPERM, List.lookup,
      ruleMatches, condMatches, truncArg]
    tauto
  rcases eq_or_ne sysno 257 with h | h1
  · subst h
    simp [install_seccomp_action, evalSeccompFilter, judgeFilterRules,
      SYS_open, SYS_openat, SYS_execve, SYS_execveat, SYS_socket, SYS_fork,
      SYS_vfork, SYS_prctl, SYS_ioctl, SYS_clone, SYS_mkdir, SYS_rmdir,
      SYS_creat, SYS_chroot, O_RDWR, O_WRONLY, EPERM, List.lookup,
      ruleMatches, condMatches, truncArg]
    tauto
  rcases eq_or_ne sysno 59 with h | h2
  · subst h
    simp [install_seccomp_action, evalSeccompFilter, judgeFilterRules,
      SYS_open, SYS_openat, SYS_execve, SYS_execveat, SYS_socket, SYS_fork,
      SYS_vfork, SYS_prctl, SYS_ioctl, SYS_clone, SYS_mkdir, SYS_rmdir,
      SYS_creat, SYS_chroot, O_RDWR, O_WRONLY, EPERM, List.lookup,
      ruleMatches, condMatches, truncArg]
  by_cases hden : sysno = 322 ∨ sysno = 41 ∨ sysno = 57 ∨
      sysno = 58 ∨ sysno = 157 ∨ sysno = 16 ∨ sysno = 56 ∨
      sysno = 83 ∨ sysno = 84 ∨ sysno = 85 ∨ sysno = 161
  · rcases hden with h | h | h | h | h | h | h | h | h | h | h <;>
      subst h <;>
      simp [install_seccomp_action, evalSeccompFilter, judgeFilterRules,
        SYS_open, SYS_openat, SYS_execve, SYS_execveat, SYS_socket,
        SYS_fork, SYS_vfork, SYS_prctl, SYS_ioctl, SYS_clone, SYS_mkdir,
        SYS_rmdir, SYS_creat, SYS_chroot, EPERM, List.lookup]
  · push_neg at hden
    obtain ⟨h3, h4, h5, h6, h7, h8, h9, h10, h11, h12, h13⟩ := hden
    have e0 : (sysno == 2) = false := beq_eq_false_iff_ne.mpr h0
    have e1 : (sysno == 257) = false := beq_eq_false_iff_ne.mpr h1
    have e2 : (sysno == 59) = false := beq_eq_false_iff_ne.mpr h2
    have e3 : (sysno == 322) = false := beq_eq_false_iff_ne.mpr h3
    have e4 : (sysno == 41) = false := beq_eq_false_iff_ne.mpr h4
    have e5 : (sysno == 57) = false := beq_eq_false_iff_ne.mpr h5
    have e6 : (sysno == 58) = false := beq_eq_false_iff_ne.mpr h6
    have e7 : (sysno == 157) = false := beq_eq_false_iff_ne.mpr h7
    have e8 : (sysno == 16) = false := beq_eq_false_iff_ne.mpr h8
    have e9 : (sysno == 56) = false := beq_eq_false_iff_ne.mpr h9
    have e10 : (sysno == 83) = false := beq_eq_false_iff_ne.mpr h10
    have e11 : (sysno == 84) = false := beq_eq_false_iff_ne.mpr h11
    have e12 : (sysno == 85) = false := beq_eq_false_iff_ne.mpr h12
    have e13 : (sysno == 161) = false := beq_eq_false_iff_ne.mpr h13
    simp [install_seccomp_action, evalSeccompFilter, judgeFilterRules,
      SYS_open, SYS_openat, SYS_execve, SYS_execveat, SYS_socket, SYS_fork,
      SYS_vfork, SYS_prctl, SYS_ioctl, SYS_clone, SYS_mkdir, SYS_rmdir,
      SYS_creat, SYS_chroot, List.lookup, e0, e1, e2, e3, e4, e5, e6, e7,
      e8, e9, e10, e11, e12, e13, h0, h1, h2, h3, h4, h5, h6, h7, h8, h9,
      h10, h11, h12, h13]

lemma find_path_loop_eq_find (filename : RStr) (ex : RStr → Bool) :
    ∀ l : List RStr,
      find_path_loop filename ex l =
        ((l.map (fun p => path_push p filename)).find? ex).getD filename := by
  intro l
  induction l with
  | nil => simp [find_path_loop]
  | cons p rest ih =>
    by_cases hp : ex (path_push p filename) <;>
      simp [find_path_loop, List.find?, hp, ih]

/-- C8: `find_path` returns the name verbatim when it contains a path
separator; otherwise, with `PATH` unset, it returns the bare name;
otherwise it splits `PATH` on `:`, joins each segment with the name in
order, and returns the first joined path that exists, falling back to the
bare name when none exists. -/
theorem find_path_resolution (filename : RStr) (path_var : Option RStr)
    (path_exists : RStr → Bool) :
    ((filename : List Char).contains '/' = true →
      find_path filename path_var path_exists = filename) ∧
    ((filename : List Char).contains '/' = false → path_var = none →
      find_path filename path_var path_exists = filename) ∧
    ((filename : List Char).contains '/' = false →
      ∀ paths, path_var = some paths →
      find_path filename path_var path_exists =
        (((splitOnSep ':' paths).map
          (fun p => path_push p filename)).find? path_exists).getD
            filename) := by
  refine ⟨?_, ?_, ?_⟩
  · intro hc
    simp only [find_path]
    rw [if_pos hc]
  · intro hc hv
    subst hv
    simp only [find_path]
    rw [if_neg (by simpa using hc)]
  · intro hc paths hv
    subst hv
    simp only [find_path]
    rw [if_neg (by simpa using hc)]
    exact find_path_loop_eq_find filename path_exists (splitOnSep ':' paths)

/-- Witness for C8: resolving `ls` with `PATH=/bin:/usr/bin` where only
`/usr/bin/ls` exists. -/
theorem find_path_resolution_witness :
    find_path ['l', 's'] (some ['/', 'b', 'i', 'n', ':', '/', 'u', 's',
        'r', '/', 'b', 'i', 'n'])
        (fun s => s == ['/', 'u', 's', 'r', '/', 'b', 'i', 'n', '/', 'l',
          's']) =
      ['/', 'u', 's', 'r', '/', 'b', 'i', 'n', '/', 'l', 's'] := by
  have h := (find_path_resolution ['l', 's']
    (some ['/', 'b', 'i', 'n', ':', '/', 'u', 's', 'r', '/', 'b', 'i', 'n'])
    (fun s => s == ['/', 'u', 's', 'r', '/', 'b', 'i', 'n', '/', 'l',
      's'])).2.2 (by decide) _ rfl
  rw [h]
  decide

/-- Witness for C9 at two empty files. -/
theorem compare_content_range_and_frame_witness :
    (JudgeStatus.Accepted = JudgeStatus.Accepted ∨
      JudgeStatus.Accepted = JudgeStatus.PresentationError ∨
      JudgeStatus.Accepted = JudgeStatus.WrongAnswer) ∧
    (fileOf []).bytes = (fileOf []).bytes ∧
    (fileOf []).bytes = (fileOf []).bytes ∧
    (fileOf []).seekOk = (fileOf []).seekOk ∧
    (fileOf []).seekOk = (fileOf []).seekOk :=
  compare_content_range_and_frame (fileOf []) (fileOf [])
    JudgeStatus.Accepted (fileOf []) (fileOf []) rfl
